import Mathlib

/-!
Shallow embedding of the core of `registration_checker.py` (UT Registration
Checker) and proofs about it.

The program is a synchronous monitoring loop over browser pages.  Pure parts
(string normalization, validation, the edge-trigger state machine of the
monitor loop, the login-poll loop, the cleanup structure) are embedded as
executable Lean functions; the browser, OS sound and terminal are external
collaborators whose per-call outcomes appear as explicit inputs
(for example `TextQuery` is the outcome of one
`page.locator(STATUS_SELECTOR).first.inner_text(timeout=5000)` call).
-/

namespace RegChecker

/-! ## Module-level constants (registration_checker.py, lines 13-27) -/

/-- Base URL for course schedule (line 14). -/
def BASE_COURSE_URL : String := "https://utdirect.utexas.edu/apps/registrar/course_schedule"

/-- Registration page URL opened when a course opens (line 17). -/
def REGISTRATION_URL : String := "https://utdirect.utexas.edu/registration/registration.WBX"

/-- Check interval in minutes (line 20). -/
def CHECK_INTERVAL_MINUTES : Nat := 5

/-- Check interval in seconds (line 21). -/
def CHECK_INTERVAL_SECONDS : Nat := CHECK_INTERVAL_MINUTES * 60

/-- Selector for the status cell in the table (line 24). -/
def STATUS_SELECTOR : String := "td[data-th=\"Status\"]"

/-- Expected title when logged in (line 27). -/
def LOGGED_IN_TITLE : String := "UT Austin Registrar"

/-- Timeout argument of the `inner_text` call in `get_status` (line 121). -/
def STATUS_TEXT_TIMEOUT_MS : Nat := 5000

/-- Deadline of the login poll loop in seconds, `max_wait_time` (line 145). -/
def MAX_LOGIN_WAIT_SECONDS : Nat := 300

/-- Sleep between login polls in seconds (line 164). -/
def LOGIN_POLL_INTERVAL_SECONDS : Nat := 2

/-! ## String helpers modelling Python primitives -/

/-- Does the character list start with the given needle?  Helper for
substring containment. -/
def charsStartWith : List Char → List Char → Bool
  | [], _ => true
  | _ :: _, [] => false
  | a :: as, b :: bs => a == b && charsStartWith as bs

/-- Does the character list contain the needle as a contiguous run? -/
def charsContain (needle : List Char) : List Char → Bool
  | [] => charsStartWith needle []
  | c :: cs => charsStartWith needle (c :: cs) || charsContain needle cs

/-- Models the Python membership test on strings: `needle in hay`. -/
def strContains (hay needle : String) : Bool :=
  charsContain needle.data hay.data

/-- Models Python `s.strip()`: drop whitespace characters at both ends. -/
def pyStrip (s : String) : String :=
  String.mk (((s.data.dropWhile Char.isWhitespace).reverse.dropWhile Char.isWhitespace).reverse)

/-- Models Python `s.lower()`: lower-case every character. -/
def pyLower (s : String) : String := String.mk (s.data.map Char.toLower)

/-- Models Python `s.strip().lower()` as applied in `get_status`
(line 121): trim whitespace at both ends, then lower-case. -/
def pyNormalize (s : String) : String := pyLower (pyStrip s)

/-- Models Python `s.isdigit()` (line 65): true exactly when the string is
nonempty and every character is a digit. -/
def pyIsDigit (s : String) : Bool := !s.isEmpty && s.data.all Char.isDigit

/-! ## Status Extractor: `get_status` (lines 117-128)

`TextQuery` is the outcome of the single browser call
`page.locator(STATUS_SELECTOR).first.inner_text(timeout=STATUS_TEXT_TIMEOUT_MS)`:
it either produced the inner text of the first element matching the selector,
raised `PlaywrightTimeoutError`, or raised some other exception. -/

inductive TextQuery where
  | found (text : String)
  | timeout
  | failure (msg : String)
  deriving DecidableEq, Repr

/-- Translation of `get_status` (lines 117-128): on a found text, return it
stripped and lower-cased; on a timeout, log and return `None`; on any other
exception, log and return `None`.  Total, so it never raises to its caller. -/
def get_status : TextQuery → Option String
  | TextQuery.found t => some (pyNormalize t)
  | TextQuery.timeout => none
  | TextQuery.failure _ => none

/-! ## Per-course check: `check_course_status` (lines 174-189)

`reloadOk` is whether `page.reload(wait_until="networkidle", timeout=30000)`
returned normally; if it raised, the surrounding `except` returns `None`.
After the reload, `get_status` runs and Python truthiness
(`if status: return status else: return None`) maps both `None` and the
empty string to `None`. -/

def check_course_status (reloadOk : Bool) (q : TextQuery) : Option String :=
  if reloadOk then
    match get_status q with
    | some s => if s = "" then none else some s
    | none => none
  else none

/-! ## Edge-Trigger Monitor: one course in one round (lines 305-324)

Per course the loop keeps `initial_statuses[name]` — the baseline — which is
seeded by the initial snapshot (lines 289-292, possibly `None`) and afterwards
mutated only inside the alert branch (line 321).  `MonitorEvent` records, in
program order, the observable actions of the branch at lines 312-324. -/

inductive MonitorEvent where
  | alertLog (prev curr : String)
  | setBaseline (s : String)
  | alarm (s : String)
  deriving DecidableEq, Repr

/-- Is the event an invocation of `play_alarm`? -/
def isAlarmEvent : MonitorEvent → Bool
  | MonitorEvent.alarm _ => true
  | _ => false

/-- Did the event list dispatch an alarm? -/
def firesAlarm (evs : List MonitorEvent) : Bool := evs.any isAlarmEvent

/-- Seeding of the baseline by the initial snapshot
(`initial_statuses[name] = status`, line 292): the read result is stored as
is, including `None`. -/
def seedBaseline (firstRead : Option String) : Option String := firstRead

/-- Translation of the per-course body of the monitoring loop
(lines 305-324).  `baseline` is the stored `initial_statuses[name]`;
`readResult` is the value of `check_course_status` this round.  Returns the
new baseline and the events of this iteration in program order.  Note the
baseline is written only inside the alert branch (line 321); outside it the
stored value is left as is. -/
def monitorCourseStep (baseline : Option String) (readResult : Option String) :
    Option String × List MonitorEvent :=
  match readResult with
  | none => (baseline, [])
  | some status =>
    if status = "" then (baseline, [])
    else if baseline = some "closed" ∧ status ≠ "closed" then
      (some status,
        [MonitorEvent.alertLog "closed" status, MonitorEvent.setBaseline status,
         MonitorEvent.alarm status])
    else (baseline, [])

/-- Iterated monitoring of one course over a sequence of per-round read
results, starting from a given baseline: folds `monitorCourseStep` and
concatenates the event lists in order. -/
def runMonitor : Option String → List (Option String) → Option String × List MonitorEvent
  | b, [] => (b, [])
  | b, r :: rest =>
    let step := monitorCourseStep b r
    let tail := runMonitor step.1 rest
    (tail.1, step.2 ++ tail.2)

/-- One full round of the loop body over all courses (the `for` at line 305):
every course is stepped in fixed order, independent of the outcomes of the
others. -/
def monitorRound (courses : List (Option String × Option String)) :
    List (Option String × List MonitorEvent) :=
  courses.map (fun c => monitorCourseStep c.1 c.2)

/-! ## Session Bootstrapper: `wait_for_login` (lines 131-171)

One `LoginPoll` is one iteration of the `while` loop: `elapsed` is
`time.time() - start_time` at the loop test; `statusVisible` is the outcome of
`page.locator(STATUS_SELECTOR).first.is_visible(timeout=2000)` (`none` when it
raised, which the bare `except: pass` swallows); `title` is `page.title()` in
that iteration. -/

structure LoginPoll where
  elapsed : Nat
  statusVisible : Option Bool
  title : String
  deriving DecidableEq, Repr

/-- The test at line 139 that routes into the polling loop:
the title contains "Sign in" or "Stale Request". -/
def isLoginTitle (t : String) : Bool :=
  strContains t "Sign in" || strContains t "Stale Request"

/-- Success test of one poll iteration, translated from lines 149-162: the
status element reported visible (exceptions swallowed), or the title contains
`LOGGED_IN_TITLE` and does not contain "Sign in".  Note only "Sign in" is
re-checked here, not "Stale Request". -/
def loginPollSucceeds (p : LoginPoll) : Bool :=
  (p.statusVisible == some true) ||
    (strContains p.title LOGGED_IN_TITLE && !(strContains p.title "Sign in"))

/-- Success test of one poll as the specification words it: visible, or the
title contains the authenticated title without the login pattern
("Sign in" or "Stale Request").  Written from the specification text, to be
compared with `loginPollSucceeds` taken from the code. -/
def specLoginPollSucceeds (p : LoginPoll) : Bool :=
  (p.statusVisible == some true) ||
    (strContains p.title LOGGED_IN_TITLE && !(isLoginTitle p.title))

/-- The polling `while` loop of `wait_for_login` (lines 148-167): at each
iteration first the deadline test, then the success tests; returns `true` on
the first succeeding poll, `false` once the deadline is reached.  An exhausted
trace is read as the deadline having passed (the wall clock always advances
past any bound). -/
def loginLoop : List LoginPoll → Bool
  | [] => false
  | p :: rest =>
    if MAX_LOGIN_WAIT_SECONDS ≤ p.elapsed then false
    else if loginPollSucceeds p then true
    else loginLoop rest

/-- Translation of `wait_for_login` (lines 131-171) after the initial
navigation: if the initial title matches the login pattern, run the polling
loop over the trace of iterations; otherwise return `true` immediately
(lines 168-171). -/
def wait_for_login (initialTitle : String) (polls : List LoginPoll) : Bool :=
  if isLoginTitle initialTitle then loginLoop polls else true

/-! ## Alert Dispatcher: `play_alarm` (lines 85-114)

The sound and speech sub-steps go through `os.system`, which reports failure
only via its integer exit status and never raises; those statuses are taken as
inputs and, as in the code, discarded.  The popup capture
(`page.expect_popup` / `page.evaluate`) can raise; `PopupResult` is its
outcome, and the code wraps it in `try`/`except`.  The function returns the
log lines it emits; a raised-to-caller exception would be `Except.error`,
which the translation shows never happens. -/

inductive PopupResult where
  | opened
  | failed (msg : String)
  deriving DecidableEq, Repr

/-- Number of bell/afplay rounds in `play_alarm` (line 90). -/
def ALARM_SOUND_REPEATS : Nat := 5

/-- Translation of `play_alarm` (lines 85-114). -/
def play_alarm (courseName status : String) (soundExitCodes : List Int)
    (speechExitCode : Int) (popup : PopupResult) : Except String (List String) :=
  let startLogs := ["🔔 PLAYING ALARM..."]
  let _ := soundExitCodes
  let _ := speechExitCode
  let message :=
    "Alert! " ++ courseName ++ " is now " ++ status ++ ". Check registration immediately!"
  let popupLogs :=
    match popup with
    | PopupResult.opened =>
      ["Opening registration page in a new tab: " ++ REGISTRATION_URL,
       "✓ Registration page opened in new tab"]
    | PopupResult.failed e =>
      ["Opening registration page in a new tab: " ++ REGISTRATION_URL,
       "WARNING: Could not open registration page: " ++ e]
  Except.ok (startLogs ++ [message] ++ popupLogs)

/-! ## Course setup: `get_course_codes` (lines 36-73) and the entry guard

The interactive loop is a function of the sequence of raw input lines.  An
exhausted input list is outside the modelled behaviour (the terminal always
yields a line), so the result is wrapped in one more `Option`: `none` means
the trace ended mid-loop. -/

/-- The `while True` input loop of `get_course_codes` (lines 55-71): strip the
line; empty input ends setup (failing when no code was collected yet);
non-numeric input is warned about and skipped; numeric input is appended. -/
def courseCodeLoop (semester : String) :
    List String → List String → Option (Option String × List String)
  | [], _ => none
  | raw :: rest, acc =>
    let code := pyStrip raw
    if code = "" then
      if acc.isEmpty then some (none, [])
      else some (some semester, acc)
    else if pyIsDigit code then courseCodeLoop semester rest (acc ++ [code])
    else courseCodeLoop semester rest acc

/-- Translation of `get_course_codes` (lines 36-73): strip the semester line,
fail with `(None, [])` when it is empty, otherwise run the course-code input
loop. -/
def get_course_codes (semesterRaw : String) (inputs : List String) :
    Option (Option String × List String) :=
  let semester := pyStrip semesterRaw
  if semester = "" then some (none, []) else courseCodeLoop semester inputs []

/-- The guard at the top of `monitor_courses` (lines 195-197):
`if not semester or not course_codes: return` — monitoring starts only when
the semester is a non-None nonempty string and the code list is nonempty. -/
def monitor_starts (semester : Option String) (codes : List String) : Bool :=
  match semester with
  | none => false
  | some s => !(s == "") && !codes.isEmpty

/-- URL construction, `build_course_urls` (lines 76-82). -/
def build_course_urls (semester : String) (codes : List String) : List String :=
  codes.map (fun code => BASE_COURSE_URL ++ "/" ++ semester ++ "/" ++ code ++ "/")

/-! ## Teardown: the `try`/`except`/`finally` of `monitor_courses`
(lines 246-342)

`BodyOutcome` is how the monitoring phase (the `try` body) ended; `closeOk`
is whether `browser.close()` returned normally (its own exception is caught
at line 340).  `monitor_teardown` returns the handler and cleanup actions in
program order and whether anything was re-raised to the caller. -/

inductive BodyOutcome where
  | normal
  | keyboardInterrupt
  | exn (msg : String)
  deriving DecidableEq, Repr

inductive CleanupAction where
  | logStopped
  | logError (msg : String)
  | closeBrowser
  | logCloseError
  | logDone
  deriving DecidableEq, Repr

/-- Translation of the exception handling and `finally` block of
`monitor_courses` (lines 329-342), in the case where a browser was launched:
`KeyboardInterrupt` is caught and logged; any other exception is caught and
its traceback printed; then the `finally` block always attempts
`browser.close()` (its failure caught and logged) and logs "Done.".  Nothing
is re-raised. -/
def monitor_teardown (browserLaunched : Bool) (body : BodyOutcome) (closeOk : Bool) :
    List CleanupAction × Bool :=
  let handlerActs :=
    match body with
    | BodyOutcome.normal => []
    | BodyOutcome.keyboardInterrupt => [CleanupAction.logStopped]
    | BodyOutcome.exn m => [CleanupAction.logError m]
  let closeActs :=
    if browserLaunched then
      if closeOk then [CleanupAction.closeBrowser]
      else [CleanupAction.closeBrowser, CleanupAction.logCloseError]
    else []
  (handlerActs ++ closeActs ++ [CleanupAction.logDone], false)

/-! ## Helper lemmas -/

/-- The public per-course read never produces the empty string: Python
truthiness in `check_course_status` (lines 181-186) filters it out. -/
theorem check_course_status_ne_some_empty (ok : Bool) (q : TextQuery) :
    check_course_status ok q ≠ some "" := by
  cases ok with
  | false => simp [check_course_status]
  | true =>
    cases q with
    | found t =>
      simp only [check_course_status, get_status, if_true]
      split
      · simp
      · simp_all
    | timeout => simp [check_course_status, get_status]
    | failure m => simp [check_course_status, get_status]

/-! ## C1 -/

/-- C1 counterexample: a successful read does not set the baseline
unconditionally.  With the baseline seeded to "open" by the initial snapshot,
a later successful read of "waitlisted" leaves the baseline at "open": the
assignment at line 321 sits inside the alert branch only. -/
theorem baseline_not_updated_on_plain_read :
    (monitorCourseStep (seedBaseline (some "open")) (some "waitlisted")).1 = some "open" ∧
    (monitorCourseStep (seedBaseline (some "open")) (some "waitlisted")).1 ≠ some "waitlisted" := by
  decide

/-- C1 (amended): a failed read (None) never alters the baseline; a
successful nonempty read sets the baseline to the read value exactly when the
stored baseline is "closed" and the value differs from "closed" (the alert
edge); in every other case the baseline keeps its prior value, so it tracks
the seeded initial status rather than the latest successful read. -/
theorem monitor_baseline_update_characterization :
    (∀ b, monitorCourseStep b none = (b, [])) ∧
    (∀ b s, s ≠ "" →
      (monitorCourseStep b (some s)).1 =
        if b = some "closed" ∧ s ≠ "closed" then some s else b) := by
  refine ⟨fun b => rfl, fun b s hs => ?_⟩
  by_cases hc : b = some "closed" ∧ s ≠ "closed" <;>
    simp [monitorCourseStep, hs, hc]

/-- C1 witness: the characterization evaluated at concrete inputs — a failed
read preserves the baseline, and the alert edge adopts the new status. -/
theorem monitor_baseline_update_characterization_witness :
    monitorCourseStep (some "open") none = (some "open", []) ∧
    (monitorCourseStep (some "closed") (some "open")).1 = some "open" := by
  refine ⟨monitor_baseline_update_characterization.1 (some "open"), ?_⟩
  rw [monitor_baseline_update_characterization.2 (some "closed") "open" (by decide)]
  decide

/-! ## C2 -/

/-- C2: in one monitor iteration for a course, `play_alarm` is dispatched if
and only if the stored baseline is exactly "closed" and the freshly read
status (the value of `check_course_status`) is a different, non-None value. -/
theorem alarm_fires_iff_closed_baseline_and_changed (b : Option String) (ok : Bool)
    (q : TextQuery) :
    firesAlarm (monitorCourseStep b (check_course_status ok q)).2 = true ↔
      b = some "closed" ∧ check_course_status ok q ≠ none ∧
        check_course_status ok q ≠ some "closed" := by
  have hne : check_course_status ok q ≠ some "" := check_course_status_ne_some_empty ok q
  cases hr : check_course_status ok q with
  | none => simp [monitorCourseStep, firesAlarm]
  | some s =>
    have hs : s ≠ "" := fun h => hne (by rw [hr, h])
    by_cases hc : b = some "closed"
    · by_cases hcl : s = "closed"
      · subst hcl
        simp [monitorCourseStep, hs, hc, firesAlarm, isAlarmEvent]
      · simp [monitorCourseStep, hs, hc, hcl, firesAlarm, isAlarmEvent]
    · simp [monitorCourseStep, hs, hc, firesAlarm, isAlarmEvent]

/-- C2 witness: with baseline "closed" and a fresh read of " Open " (which
normalizes to "open"), the alarm fires. -/
theorem alarm_fires_iff_closed_baseline_and_changed_witness :
    firesAlarm (monitorCourseStep (some "closed")
      (check_course_status true (TextQuery.found " Open "))).2 = true :=
  (alarm_fires_iff_closed_baseline_and_changed (some "closed") true
    (TextQuery.found " Open ")).mpr (by decide)

/-! ## C3 -/

/-- C3: when the alarm fires, the iteration logs the transition, sets the
baseline to the new status, and only then dispatches the alarm (the event
list is in program order, lines 313-324); hence a subsequent successful read
of the same new status does not fire again. -/
theorem alarm_at_most_once_per_transition (b : Option String) (s : String)
    (h : firesAlarm (monitorCourseStep b (some s)).2 = true) :
    (monitorCourseStep b (some s)).2 =
      [MonitorEvent.alertLog "closed" s, MonitorEvent.setBaseline s,
       MonitorEvent.alarm s] ∧
    (monitorCourseStep b (some s)).1 = some s ∧
    firesAlarm (monitorCourseStep (monitorCourseStep b (some s)).1 (some s)).2 = false := by
  by_cases hs : s = ""
  · exfalso
    rw [hs] at h
    simp [monitorCourseStep, firesAlarm] at h
  by_cases hc : b = some "closed" ∧ s ≠ "closed"
  · have hstep : monitorCourseStep b (some s) =
        (some s,
          [MonitorEvent.alertLog "closed" s, MonitorEvent.setBaseline s,
           MonitorEvent.alarm s]) := by
      simp [monitorCourseStep, hs, hc]
    refine ⟨by rw [hstep], by rw [hstep], ?_⟩
    rw [hstep]
    have hcc : ¬(some s = some "closed" ∧ s ≠ "closed") := by
      rintro ⟨h1, h2⟩
      exact h2 (Option.some.inj h1)
    simp [monitorCourseStep, hs, hcc, firesAlarm]
  · exfalso
    simp [monitorCourseStep, hs, hc, firesAlarm] at h

/-- C3 witness: the closed-to-open edge at concrete inputs. -/
theorem alarm_at_most_once_per_transition_witness :
    (monitorCourseStep (some "closed") (some "open")).2 =
      [MonitorEvent.alertLog "closed" "open", MonitorEvent.setBaseline "open",
       MonitorEvent.alarm "open"] ∧
    (monitorCourseStep (some "closed") (some "open")).1 = some "open" ∧
    firesAlarm (monitorCourseStep (monitorCourseStep (some "closed") (some "open")).1
      (some "open")).2 = false :=
  alarm_at_most_once_per_transition (some "closed") "open" (by decide)

/-! ## C4 -/

/-- C4 counterexample: a course seeded to "open" whose reads later return to
"closed" and then change back to "open" fires no alert at all — the baseline
is only written inside the alert branch, so it never becomes "closed" and the
claimed subsequent transition cannot trigger. -/
theorem no_alert_after_returning_to_closed :
    firesAlarm (runMonitor (seedBaseline (some "open")) [some "closed", some "open"]).2 = false ∧
    (runMonitor (seedBaseline (some "open")) [some "closed", some "open"]).1 = some "open" := by
  decide

/-- C4 (amended): a course whose baseline is not "closed" — in particular one
whose first successful read was some other value — never triggers an alert
for that value, and indeed never triggers at all on any later read sequence:
the baseline is only updated when an alert fires, so it can never become
"closed" afterwards and no later return to "closed" re-arms the trigger. -/
theorem non_closed_baseline_never_alerts (b : Option String)
    (reads : List (Option String)) (h : b ≠ some "closed") :
    (runMonitor b reads).1 = b ∧ (runMonitor b reads).2 = [] := by
  induction reads generalizing b with
  | nil => exact ⟨rfl, rfl⟩
  | cons r rest ih =>
    have hstep : monitorCourseStep b r = (b, []) := by
      cases r with
      | none => rfl
      | some s =>
        by_cases hs : s = ""
        · simp [monitorCourseStep, hs]
        · have hc : ¬(b = some "closed" ∧ s ≠ "closed") := fun hcc => h hcc.1
          simp [monitorCourseStep, hs, hc]
    have ht := ih b h
    simp [runMonitor, hstep, ht.1, ht.2]

/-- C4 witness: the never-alerts theorem evaluated on the counterexample
scenario (baseline "open", reads "closed" then "open"). -/
theorem non_closed_baseline_never_alerts_witness :
    (runMonitor (some "open") [some "closed", some "open"]).1 = some "open" ∧
    (runMonitor (some "open") [some "closed", some "open"]).2 = [] :=
  non_closed_baseline_never_alerts (some "open") [some "closed", some "open"] (by decide)

/-! ## C5 -/

/-- C5: `get_status` returns the stripped, lower-cased inner text of the first
element matching the fixed status selector when the query produced a text; on
a timeout or any other extraction error it returns None; being a total
function into an Option it never raises to its caller.  The query runs under
the 5000 ms bound and against the fixed selector recorded in the constants. -/
theorem get_status_contract :
    (∀ t, get_status (TextQuery.found t) = some (pyLower (pyStrip t))) ∧
    get_status TextQuery.timeout = none ∧
    (∀ m, get_status (TextQuery.failure m) = none) ∧
    STATUS_TEXT_TIMEOUT_MS = 5000 ∧
    STATUS_SELECTOR = "td[data-th=\"Status\"]" :=
  ⟨fun _ => rfl, rfl, fun _ => rfl, rfl, rfl⟩

/-! ## C6 -/

/-- The polling loop returns true exactly on the first poll that both lies
within the deadline and satisfies the code success test, all earlier polls
lying within the deadline and failing it. -/
theorem loginLoop_true_iff (polls : List LoginPoll) :
    loginLoop polls = true ↔
      ∃ pre p post, polls = pre ++ p :: post ∧
        (∀ q ∈ pre, q.elapsed < MAX_LOGIN_WAIT_SECONDS ∧ loginPollSucceeds q = false) ∧
        p.elapsed < MAX_LOGIN_WAIT_SECONDS ∧ loginPollSucceeds p = true := by
  induction polls with
  | nil =>
    constructor
    · intro h
      simp [loginLoop] at h
    · rintro ⟨pre, p, post, hdec, -, -, -⟩
      cases pre <;> simp_all
  | cons a rest ih =>
    by_cases hta : MAX_LOGIN_WAIT_SECONDS ≤ a.elapsed
    · simp only [loginLoop, if_pos hta]
      constructor
      · intro h
        cases h
      · rintro ⟨pre, p, post, hdec, hpre, hp, hps⟩
        cases pre with
        | nil =>
          simp only [List.nil_append, List.cons.injEq] at hdec
          obtain ⟨rfl, rfl⟩ := hdec
          exact absurd hp (not_lt.mpr hta)
        | cons x xs =>
          simp only [List.cons_append, List.cons.injEq] at hdec
          obtain ⟨rfl, -⟩ := hdec
          have hx := hpre a (List.mem_cons_self a xs)
          exact absurd hx.1 (not_lt.mpr hta)
    · have hlt : a.elapsed < MAX_LOGIN_WAIT_SECONDS := lt_of_not_le hta
      by_cases hsa : loginPollSucceeds a = true
      · simp only [loginLoop, if_neg hta, if_pos hsa]
        constructor
        · intro _
          exact ⟨[], a, rest, rfl, by simp, hlt, hsa⟩
        · intro _
          trivial
      · simp only [loginLoop, if_neg hta, if_neg hsa]
        rw [ih]
        constructor
        · rintro ⟨pre, p, post, hdec, hpre, hp, hps⟩
          refine ⟨a :: pre, p, post, by rw [hdec, List.cons_append], ?_, hp, hps⟩
          intro q hq
          rcases List.mem_cons.mp hq with hqa | hqpre
          · subst hqa
            exact ⟨hlt, Bool.eq_false_iff.mpr hsa⟩
          · exact hpre q hqpre
        · rintro ⟨pre, p, post, hdec, hpre, hp, hps⟩
          cases pre with
          | nil =>
            simp only [List.nil_append, List.cons.injEq] at hdec
            obtain ⟨rfl, rfl⟩ := hdec
            exact absurd hps hsa
          | cons x xs =>
            simp only [List.cons_append, List.cons.injEq] at hdec
            obtain ⟨rfl, hrest⟩ := hdec
            exact ⟨xs, p, post, hrest,
              fun q hq => hpre q (List.mem_cons_of_mem _ hq), hp, hps⟩

/-- C6 counterexample: the polling check of `wait_for_login` re-checks only
"Sign in", not the whole login pattern.  With the initial title on the login
pattern, a poll whose title is "UT Austin Registrar Stale Request" (status
selector not visible) makes the code return success, although the success
condition worded by the specification — authenticated title without the login
pattern ("Sign in" or "Stale Request") — does not hold for that poll. -/
theorem wait_for_login_stale_request_mismatch :
    wait_for_login "Sign in with your UT EID"
      [⟨10, some false, "UT Austin Registrar Stale Request"⟩] = true ∧
    specLoginPollSucceeds ⟨10, some false, "UT Austin Registrar Stale Request"⟩ = false ∧
    isLoginTitle "Sign in with your UT EID" = true := by
  decide

/-- C6 (amended): when the initial title matches the login pattern, the poll
loop returns success exactly on the first poll within the 300-second deadline
whose status selector is visible or whose title contains the authenticated
title without "Sign in" (a remaining "Stale Request" marker is not excluded);
if no poll ever meets the condition it returns the login-timeout failure; and
when the initial title never matched the login pattern it returns success
immediately. -/
theorem wait_for_login_characterization :
    (∀ t polls, isLoginTitle t = false → wait_for_login t polls = true) ∧
    (∀ t polls, isLoginTitle t = true →
      (wait_for_login t polls = true ↔
        ∃ pre p post, polls = pre ++ p :: post ∧
          (∀ q ∈ pre, q.elapsed < MAX_LOGIN_WAIT_SECONDS ∧ loginPollSucceeds q = false) ∧
          p.elapsed < MAX_LOGIN_WAIT_SECONDS ∧ loginPollSucceeds p = true)) ∧
    (∀ t polls, isLoginTitle t = true →
      (∀ p ∈ polls, loginPollSucceeds p = false) → wait_for_login t polls = false) := by
  refine ⟨?_, ?_, ?_⟩
  · intro t polls h
    simp [wait_for_login, h]
  · intro t polls h
    simp only [wait_for_login, h, if_true]
    exact loginLoop_true_iff polls
  · intro t polls h hall
    simp only [wait_for_login, h, if_true]
    cases hl : loginLoop polls with
    | false => rfl
    | true =>
      obtain ⟨pre, p, post, hdec, -, -, hps⟩ := (loginLoop_true_iff polls).mp hl
      have hmem : p ∈ polls := by
        rw [hdec]
        exact List.mem_append_right _ (List.mem_cons_self _ _)
      rw [hall p hmem] at hps
      cases hps

/-- C6 witness: the characterization at concrete traces — an authenticated
initial title succeeds with no polling; a login title with a visible status
selector at second 4 succeeds; a login title whose only poll fails both tests
returns the timeout failure. -/
theorem wait_for_login_characterization_witness :
    wait_for_login "UT Austin Registrar" [] = true ∧
    wait_for_login "Sign in required" [⟨4, some true, "Sign in required"⟩] = true ∧
    wait_for_login "Sign in required" [⟨4, some false, "Sign in required"⟩] = false := by
  refine ⟨wait_for_login_characterization.1 "UT Austin Registrar" [] (by decide), ?_, ?_⟩
  · exact (wait_for_login_characterization.2.1 "Sign in required" _ (by decide)).mpr
      ⟨[], ⟨4, some true, "Sign in required"⟩, [], rfl, by simp, by decide, by decide⟩
  · refine wait_for_login_characterization.2.2 "Sign in required" _ (by decide) ?_
    intro p hp
    rw [List.mem_singleton] at hp
    subst hp
    decide

/-! ## C7 -/

/-- C7: `play_alarm` never raises to the monitor loop: whatever the exit
codes of the sound and speech commands and whatever the outcome of the
registration-tab popup capture, it returns normally (the popup failure is
only logged), and a monitoring round still steps every course. -/
theorem play_alarm_never_fails :
    (∀ courseName status soundExitCodes speechExitCode popup, ∃ logs,
      play_alarm courseName status soundExitCodes speechExitCode popup =
        Except.ok logs) ∧
    (∀ courses, (monitorRound courses).length = courses.length) := by
  refine ⟨?_, ?_⟩
  · intro n s se sp popup
    cases popup <;> exact ⟨_, rfl⟩
  · intro courses
    simp [monitorRound]

/-! ## C8 -/

/-- Invariant of the course-code input loop: if every already-collected code
is numeric, every code in a normally returned list is numeric — the
non-numeric branch (lines 65-67) only warns and re-prompts. -/
theorem courseCodeLoop_all_digits (inputs : List String) :
    ∀ acc semester semOut codes, (∀ c ∈ acc, pyIsDigit c = true) →
      courseCodeLoop semester inputs acc = some (semOut, codes) →
      ∀ c ∈ codes, pyIsDigit c = true := by
  induction inputs with
  | nil =>
    intro acc semester semOut codes hacc h
    simp [courseCodeLoop] at h
  | cons raw rest ih =>
    intro acc semester semOut codes hacc h
    by_cases he : pyStrip raw = ""
    · by_cases ha : acc.isEmpty
      · simp only [courseCodeLoop, he, if_pos rfl, ha, if_true, Option.some.injEq,
          Prod.mk.injEq] at h
        obtain ⟨-, rfl⟩ := h
        intro c hc
        cases hc
      · simp only [courseCodeLoop, he, if_pos rfl, ha, if_false, Option.some.injEq,
          Prod.mk.injEq] at h
        obtain ⟨-, rfl⟩ := h
        exact hacc
    · by_cases hd : pyIsDigit (pyStrip raw) = true
      · simp only [courseCodeLoop, he, if_neg he, hd, if_true] at h
        refine ih (acc ++ [pyStrip raw]) semester semOut codes ?_ h
        intro c hc
        rcases List.mem_append.mp hc with hold | hnew
        · exact hacc c hold
        · rw [List.mem_singleton] at hnew
          subst hnew
          exact hd
      · simp only [courseCodeLoop, he, if_neg he, hd, if_false] at h
        exact ih acc semester semOut codes hacc h

/-- C8: setup validation — an empty (stripped) semester input yields the
handled failure value (None, []); so does an empty first course-code input;
every course code in a returned list is numeric (non-numeric entries are
skipped, never added); and after the failure value the guard at the top of
`monitor_courses` refuses to start monitoring. -/
theorem course_setup_validation :
    (∀ semRaw inputs, pyStrip semRaw = "" →
      get_course_codes semRaw inputs = some (none, [])) ∧
    (∀ semRaw rest, get_course_codes semRaw ("" :: rest) = some (none, [])) ∧
    (∀ semRaw inputs semOut codes,
      get_course_codes semRaw inputs = some (semOut, codes) →
      ∀ c ∈ codes, pyIsDigit c = true) ∧
    (∀ codes, monitor_starts none codes = false) := by
  refine ⟨?_, ?_, ?_, ?_⟩
  · intro semRaw inputs h
    simp [get_course_codes, h]
  · intro semRaw rest
    by_cases hsem : pyStrip semRaw = ""
    · simp [get_course_codes, hsem]
    · have h0 : pyStrip "" = "" := rfl
      simp [get_course_codes, hsem, courseCodeLoop, h0]
  · intro semRaw inputs semOut codes h
    by_cases hsem : pyStrip semRaw = ""
    · simp only [get_course_codes, hsem, if_pos rfl, Option.some.injEq,
        Prod.mk.injEq] at h
      obtain ⟨-, rfl⟩ := h
      intro c hc
      cases hc
    · simp only [get_course_codes, hsem, if_neg hsem] at h
      exact courseCodeLoop_all_digits inputs [] (pyStrip semRaw) semOut codes
        (by intro c hc; cases hc) h
  · intro codes
    rfl

/-- C8 witness: a whitespace-only semester fails setup; an immediately empty
course-code input fails setup; a run accepting "56615" and skipping "abc"
returns only numeric codes; the guard refuses the failure value. -/
theorem course_setup_validation_witness :
    get_course_codes " " ["56615"] = some (none, []) ∧
    get_course_codes "20262" ["" ] = some (none, []) ∧
    (∀ c ∈ ["56615"], pyIsDigit c = true) ∧
    monitor_starts none [] = false :=
  ⟨course_setup_validation.1 " " ["56615"] (by decide),
   course_setup_validation.2.1 "20262" [],
   course_setup_validation.2.2.1 "20262" ["56615", "abc", ""] (some "20262") ["56615"]
     (by decide),
   course_setup_validation.2.2.2 []⟩

/-! ## C9 -/

/-- C9: once a browser has been launched, every exit of the monitoring phase
— normal completion, keyboard interrupt, or any other uncaught error — runs
the `finally` cleanup that attempts `browser.close()`, nothing is re-raised
to the caller, and a keyboard interrupt is caught and logged as a graceful
stop. -/
theorem browser_teardown_on_all_paths (body : BodyOutcome) (closeOk : Bool) :
    CleanupAction.closeBrowser ∈ (monitor_teardown true body closeOk).1 ∧
    (monitor_teardown true body closeOk).2 = false ∧
    (body = BodyOutcome.keyboardInterrupt →
      CleanupAction.logStopped ∈ (monitor_teardown true body closeOk).1) := by
  cases body <;> cases closeOk <;> simp [monitor_teardown]

/-- C9 witness: teardown after a keyboard interrupt with a clean close. -/
theorem browser_teardown_on_all_paths_witness :
    CleanupAction.closeBrowser ∈
      (monitor_teardown true BodyOutcome.keyboardInterrupt true).1 ∧
    (monitor_teardown true BodyOutcome.keyboardInterrupt true).2 = false ∧
    CleanupAction.logStopped ∈
      (monitor_teardown true BodyOutcome.keyboardInterrupt true).1 := by
  obtain ⟨h1, h2, h3⟩ :=
    browser_teardown_on_all_paths BodyOutcome.keyboardInterrupt true
  exact ⟨h1, h2, h3 rfl⟩

/-! ## C10 -/

/-- C10: a successful DOM read whose stripped, lower-cased text is empty is
treated exactly like a failed read at the public interface: `get_status`
still returns the empty string, but `check_course_status` maps it to None,
and the monitor iteration on a None read fires no alert and leaves the
baseline untouched. -/
theorem empty_status_like_failed_read (t : String) (h : pyNormalize t = "")
    (b : Option String) :
    get_status (TextQuery.found t) = some "" ∧
    check_course_status true (TextQuery.found t) = none ∧
    monitorCourseStep b none = (b, []) := by
  refine ⟨by simp [get_status, h], ?_, rfl⟩
  simp [check_course_status, get_status, h]

/-- C10 witness: a whitespace-only status cell at a concrete input. -/
theorem empty_status_like_failed_read_witness :
    get_status (TextQuery.found "  ") = some "" ∧
    check_course_status true (TextQuery.found "  ") = none ∧
    monitorCourseStep (some "closed") none = (some "closed", []) :=
  empty_status_like_failed_read "  " (by decide) (some "closed")

end RegChecker
